import Mathlib

/-!
Shallow embedding of the filtering/state core of the `php-ext-web` dashboard
(`src/composables/useStore.ts`), together with theorems settling the frozen
claims about it.  TypeScript values are modelled as follows: strings by
`String`, numbers occurring as counts by `Nat`, `x | null` and optional
fields by `Option`, arrays by `List`, the `Map` build cache by an
association list (insertion = prepend, lookup = first binding), and the
`URLSearchParams` content by a record of `Option String` fields (one per key
the store reads/writes; `none` = key absent).  JavaScript truthiness of a
string is "non-empty", of a number "non-zero".
-/

namespace PhpExtWeb

/-- The `status` field of `Filters`: the literal union `'all' | 'success' | 'failure'`. -/
inductive Status where
  | all
  | success
  | failure
deriving DecidableEq, Repr

/-- The view mode: the literal union `'grid' | 'list'`. -/
inductive View where
  | grid
  | list
deriving DecidableEq, Repr

/-- `Filters` from `types.ts`. -/
structure Filters where
  os : List String
  phpVersion : List String
  arch : List String
  extension : List String
  status : Status
  search : String
deriving DecidableEq, Repr

/-- The reactive store state (`useStore.ts` lines 12-23): the filters plus the
current view and the selected extension (`string | null`). -/
structure StoreState where
  filters : Filters
  currentView : View
  selectedExtension : Option String
deriving DecidableEq, Repr

/-- The initial filter values (`useStore.ts` lines 13-20). -/
def defaultFilters : Filters :=
  { os := []
    phpVersion := []
    arch := []
    extension := []
    status := Status.all
    search := "" }

/-- The initial store state (`useStore.ts` lines 12-23). -/
def defaultStoreState : StoreState :=
  { filters := defaultFilters
    currentView := View.list
    selectedExtension := none }

/-- One argument pair for `setFilter(key, value)`: which facet to replace and
the new value (the TypeScript function is generic over the key). -/
inductive FilterUpdate where
  | os (v : List String)
  | phpVersion (v : List String)
  | arch (v : List String)
  | extension (v : List String)
  | status (v : Status)
  | search (v : String)

/-- `setFilter(key, value)` (`useStore.ts` lines 83-85): replaces one facet. -/
def setFilter (s : StoreState) (u : FilterUpdate) : StoreState :=
  match u with
  | FilterUpdate.os v => { s with filters := { s.filters with os := v } }
  | FilterUpdate.phpVersion v => { s with filters := { s.filters with phpVersion := v } }
  | FilterUpdate.arch v => { s with filters := { s.filters with arch := v } }
  | FilterUpdate.extension v => { s with filters := { s.filters with extension := v } }
  | FilterUpdate.status v => { s with filters := { s.filters with status := v } }
  | FilterUpdate.search v => { s with filters := { s.filters with search := v } }

/-- `clearFilters()` (`useStore.ts` lines 87-96): replaces the whole `filters`
object with the defaults; `currentView` and `selectedExtension` are separate
fields of the state and are not written. -/
def clearFilters (s : StoreState) : StoreState :=
  { s with filters :=
      { os := []
        phpVersion := []
        arch := []
        extension := []
        status := Status.all
        search := "" } }

/-- `setView(view)` (`useStore.ts` lines 98-100). -/
def setView (s : StoreState) (v : View) : StoreState :=
  { s with currentView := v }

/-- `setSelectedExtension(name)` (`useStore.ts` lines 102-104). -/
def setSelectedExtension (s : StoreState) (n : Option String) : StoreState :=
  { s with selectedExtension := n }

/-- `BuildResult` from `types.ts`.  The `status` field is declared as the
union `'success' | 'failure'` in TypeScript, but the values come from
unvalidated `response.json()`, and the code compares them to string
literals, so it is modelled as `String`. -/
structure BuildResult where
  extension : String
  extension_version : String
  channel : String
  php_version : String
  platform : String
  platform_version : String
  arch : String
  status : String
  started_at : String
  finished_at : String
  workflow_run_id : Nat
  run_attempt : Nat
  git_sha : String
  log_url : String
  asset_name : String
deriving DecidableEq, Repr

/-- `LatestExtension` from `types.ts`: one aggregate record of `latest.json`. -/
structure LatestExtension where
  path : String
  version : String
  updated_at : String
  pass : Nat
  fail : Nat
  total : Nat
deriving DecidableEq, Repr

/-- `ProcessedExtension` from `types.ts`: the per-extension view model. -/
structure ProcessedExtension where
  name : String
  version : String
  updated_at : String
  pass : Nat
  fail : Nat
  total : Nat
  successRate : Nat
  path : String
  builds : Option (List BuildResult)
deriving DecidableEq, Repr

/-- The three module-level totals recorded by `initializeFilters`
(`useStore.ts` lines 8-10): `totalOsCount`, `totalPhpCount`, `totalArchCount`.
They all start at `0`. -/
structure Totals where
  os : Nat
  php : Nat
  arch : Nat
deriving DecidableEq, Repr

/-- `Math.round((pass / total) * 100)` evaluated in exact rational
arithmetic, for `total > 0` (the call sites guard `total > 0`).
JavaScript `Math.round` rounds half toward positive infinity, which for the
non-negative quotients here is "ties away from zero", i.e.
`floor(100 * pass / total + 1 / 2) = (200 * pass + total) / (2 * total)`
in integer division. -/
def mathRound100 (pass total : Nat) : Nat :=
  (200 * pass + total) / (2 * total)

/-- The build cache (`useStore.ts` line 26): a `Map` from a result-file path
to the fetched build records, modelled as an association list where `set`
prepends and `get` returns the first binding. -/
def BuildCache : Type := List (String × List BuildResult)

/-- `Map.prototype.get` on the modelled cache. -/
def cacheGet (c : BuildCache) (path : String) : Option (List BuildResult) :=
  List.lookup path c

/-- `processExtensions(latest)` (`useStore.ts` lines 134-148): maps every
entry of `latest.json` (`Object.entries` order) to a view model, computing
`successRate` and attaching already-cached builds; `null` input gives `[]`.
The unused `_extensions` parameter is omitted. -/
def processExtensions (cache : BuildCache)
    (latest : Option (List (String × LatestExtension))) : List ProcessedExtension :=
  match latest with
  | none => []
  | some entries =>
    entries.map fun e =>
      { name := e.1
        version := e.2.version
        updated_at := e.2.updated_at
        pass := e.2.pass
        fail := e.2.fail
        total := e.2.total
        successRate := if e.2.total > 0 then mathRound100 e.2.pass e.2.total else 0
        path := e.2.path
        builds := cacheGet cache e.2.path }

/-- JavaScript `hay.includes(needle)` on strings: `needle` occurs as a
contiguous substring of `hay`. -/
def jsIncludes (hay needle : String) : Bool :=
  hay.data.tails.any fun suffix => needle.data.isPrefixOf suffix

/-- `filterBuilds(builds)` (`useStore.ts` lines 150-184): keeps a build record
iff it passes the os (`"platform|platform_version"` membership), PHP version,
architecture and status checks; an empty facet array skips that check. -/
def filterBuilds (f : Filters) (builds : List BuildResult) : List BuildResult :=
  builds.filter fun build =>
    !(f.os.length > 0 && !(f.os.contains (build.platform ++ "|" ++ build.platform_version))) &&
    !(f.phpVersion.length > 0 && !(f.phpVersion.contains build.php_version)) &&
    !(f.arch.length > 0 && !(f.arch.contains build.arch)) &&
    !(f.status == Status.success && build.status != "success") &&
    !(f.status == Status.failure && build.status != "failure")

/-- The per-model predicate of the `.filter` stage of `filterExtensions`
(`useStore.ts` lines 195-205): case-insensitive substring match of `search`
against the name, and membership of the name in the `extension` facet; an
empty `search` / empty `extension` array passes everything. -/
def extNameMatches (f : Filters) (ext : ProcessedExtension) : Bool :=
  !(f.search != "" && !(jsIncludes ext.name.toLower f.search.toLower)) &&
  !(f.extension.length > 0 && !(f.extension.contains ext.name))

/-- The "all filters selected" detection of `filterExtensions`
(`useStore.ts` lines 187-192): a facet is effectively unfiltered when its
array is empty or its length equals the recorded total count. -/
def hasDetailFilters (f : Filters) (t : Totals) : Bool :=
  let allOsSelected := f.os.length == 0 || f.os.length == t.os
  let allPhpSelected := f.phpVersion.length == 0 || f.phpVersion.length == t.php
  let allArchSelected := f.arch.length == 0 || f.arch.length == t.arch
  !(allOsSelected && allPhpSelected && allArchSelected)

/-- The `.map` stage of `filterExtensions` (`useStore.ts` lines 206-234):
with no detail filters, apply the coarse status filter to the aggregate
(`null` = dropped); with detail filters, pass models without builds through,
and otherwise recompute `pass`, `fail`, `total`, `successRate` and `builds`
from the `filterBuilds` subset, dropping the model when nothing survives. -/
def refineExtension (f : Filters) (hasDetail : Bool)
    (ext : ProcessedExtension) : Option ProcessedExtension :=
  if !hasDetail then
    if f.status == Status.success && ext.fail > 0 then none
    else if f.status == Status.failure && ext.fail == 0 then none
    else some ext
  else
    match ext.builds with
    | none => some ext
    | some builds =>
      let filteredBuilds := filterBuilds f builds
      if filteredBuilds.length == 0 then none
      else
        let pass := (filteredBuilds.filter fun b => b.status == "success").length
        let fail := (filteredBuilds.filter fun b => b.status == "failure").length
        some { ext with
          pass := pass
          fail := fail
          total := filteredBuilds.length
          successRate := if filteredBuilds.length > 0 then mathRound100 pass filteredBuilds.length else 0
          builds := some filteredBuilds }

/-- `filterExtensions(extensions)` (`useStore.ts` lines 186-236): the
`.filter`/`.map`/`.filter(ext !== null)` pipeline; mapping to `null` and then
discarding the `null`s is `List.filterMap`. -/
def filterExtensions (f : Filters) (t : Totals)
    (extensions : List ProcessedExtension) : List ProcessedExtension :=
  (extensions.filter (extNameMatches f)).filterMap
    (refineExtension f (hasDetailFilters f t))

/-- `needsBuildsLoaded()` (`useStore.ts` lines 255-259): any of the three
facet arrays is non-empty. -/
def needsBuildsLoaded (f : Filters) : Bool :=
  f.os.length > 0 || f.phpVersion.length > 0 || f.arch.length > 0

/-! ### URL synchronisation -/

/-- The serialized form of a `Status` (the union value itself is written). -/
def statusStr : Status → String
  | Status.all => "all"
  | Status.success => "success"
  | Status.failure => "failure"

/-- The serialized form of a `View`. -/
def viewStr : View → String
  | View.grid => "grid"
  | View.list => "list"

/-- JavaScript `list.join(',')`. -/
def jsJoinComma : List String → String
  | [] => ""
  | [s] => s
  | s :: rest => s ++ "," ++ jsJoinComma rest

/-- Helper for `jsSplitComma`: consume the character list, accumulating the
current (reversed) segment. -/
def jsSplitCommaAux (cur : List Char) : List Char → List String
  | [] => [String.mk cur.reverse]
  | c :: cs =>
    if c = ',' then String.mk cur.reverse :: jsSplitCommaAux [] cs
    else jsSplitCommaAux (c :: cur) cs

/-- JavaScript `s.split(',')` (single-character separator). -/
def jsSplitComma (s : String) : List String :=
  jsSplitCommaAux [] s.data

/-- The `URLSearchParams` content as read/written by the store: one field per
query key (`q`, `os`, `php`, `arch`, `ext`, `status`, `view`, `detail`);
`none` models an absent key, and `params.get` returning `null`. -/
structure UrlParams where
  q : Option String
  os : Option String
  php : Option String
  arch : Option String
  ext : Option String
  status : Option String
  view : Option String
  detail : Option String
deriving DecidableEq, Repr

/-- `syncToUrl()` (`useStore.ts` lines 32-47): serialize the non-default
fields into query parameters.  Each `params.set` is guarded by JavaScript
truthiness (non-empty string, non-zero array length) or an explicit
non-default comparison. -/
def syncToUrl (s : StoreState) : UrlParams :=
  { q := if s.filters.search ≠ "" then some s.filters.search else none
    os := if s.filters.os.length ≠ 0 then some (jsJoinComma s.filters.os) else none
    php := if s.filters.phpVersion.length ≠ 0 then some (jsJoinComma s.filters.phpVersion) else none
    arch := if s.filters.arch.length ≠ 0 then some (jsJoinComma s.filters.arch) else none
    ext := if s.filters.extension.length ≠ 0 then some (jsJoinComma s.filters.extension) else none
    status := if s.filters.status ≠ Status.all then some (statusStr s.filters.status) else none
    view := if s.currentView ≠ View.list then some (viewStr s.currentView) else none
    detail :=
      match s.selectedExtension with
      | some d => if d ≠ "" then some d else none
      | none => none }

/-- `if (search) state.filters.search = search` (`useStore.ts` line 62). -/
def applyQ (p : UrlParams) (s : StoreState) : StoreState :=
  match p.q with
  | some v => if v ≠ "" then { s with filters := { s.filters with search := v } } else s
  | none => s

/-- `if (os) state.filters.os = os.split(',')` (`useStore.ts` line 63). -/
def applyOs (p : UrlParams) (s : StoreState) : StoreState :=
  match p.os with
  | some v => if v ≠ "" then { s with filters := { s.filters with os := jsSplitComma v } } else s
  | none => s

/-- `if (php) state.filters.phpVersion = php.split(',')` (`useStore.ts` line 64). -/
def applyPhp (p : UrlParams) (s : StoreState) : StoreState :=
  match p.php with
  | some v => if v ≠ "" then { s with filters := { s.filters with phpVersion := jsSplitComma v } } else s
  | none => s

/-- `if (arch) state.filters.arch = arch.split(',')` (`useStore.ts` line 65). -/
def applyArch (p : UrlParams) (s : StoreState) : StoreState :=
  match p.arch with
  | some v => if v ≠ "" then { s with filters := { s.filters with arch := jsSplitComma v } } else s
  | none => s

/-- `if (ext) state.filters.extension = ext.split(',')` (`useStore.ts` line 66). -/
def applyExt (p : UrlParams) (s : StoreState) : StoreState :=
  match p.ext with
  | some v => if v ≠ "" then { s with filters := { s.filters with extension := jsSplitComma v } } else s
  | none => s

/-- `if (status === 'success' || status === 'failure') ...` (`useStore.ts` line 67). -/
def applyStatus (p : UrlParams) (s : StoreState) : StoreState :=
  match p.status with
  | some v =>
    if v = "success" then { s with filters := { s.filters with status := Status.success } }
    else if v = "failure" then { s with filters := { s.filters with status := Status.failure } }
    else s
  | none => s

/-- `if (view === 'grid' || view === 'list') state.currentView = view`
(`useStore.ts` line 68). -/
def applyView (p : UrlParams) (s : StoreState) : StoreState :=
  match p.view with
  | some v =>
    if v = "grid" then { s with currentView := View.grid }
    else if v = "list" then { s with currentView := View.list }
    else s
  | none => s

/-- `if (detail) state.selectedExtension = detail` (`useStore.ts` line 69). -/
def applyDetail (p : UrlParams) (s : StoreState) : StoreState :=
  match p.detail with
  | some v => if v ≠ "" then { s with selectedExtension := some v } else s
  | none => s

/-- `loadFromUrl()` (`useStore.ts` lines 50-70): overwrite, in source order,
the fields whose query key is present and passes its guard.  String keys are
guarded by truthiness (`null` and `""` both skip); `status` and `view` are
only applied when they equal one of their legal values. -/
def loadFromUrl (p : UrlParams) (s : StoreState) : StoreState :=
  applyDetail p (applyView p (applyStatus p (applyExt p
    (applyArch p (applyPhp p (applyOs p (applyQ p s)))))))

/-! ### Build cache loading -/

/-- `loadBuilds(path)` (`useStore.ts` lines 106-132) for a single sequential
call (the in-flight wait of lines 111-117 only matters for overlapping
concurrent calls, when `loadingBuilds` is non-empty; a lone call always finds
it empty).  The fetch-and-parse outcome is an explicit argument:
`some builds` when the fetch succeeded (`response.ok`) and the body parsed,
`none` when anything threw (network error, non-success response, parse
error).  Returns the updated cache and the returned record list: a cached
path returns its cached value without consulting the fetch; a successful
fetch stores the records (`Map.set`, modelled as prepend) and returns them;
a failure returns `[]` and leaves the cache untouched. -/
def loadBuilds (cache : BuildCache) (path : String)
    (fetched : Option (List BuildResult)) : BuildCache × List BuildResult :=
  match cacheGet cache path with
  | some builds => (cache, builds)
  | none =>
    match fetched with
    | some builds => ((path, builds) :: cache, builds)
    | none => (cache, [])

/-! ### Filter initialization (metadata-derived totals and full selections) -/

/-- `OsVersionData` from `types.ts`. -/
structure OsVersionData where
  versions : List String
  exclude : Option (List (String × String))
deriving DecidableEq, Repr

/-- The part of `Metadata` that `initializeFilters` reads: the OS catalog
(`Object.entries` order), the PHP version labels (`Object.keys` order) and
the architecture list. -/
structure Metadata where
  osVersions : List (String × OsVersionData)
  phpVersions : List String
  architectures : List String
deriving DecidableEq, Repr

/-- The totals recorded by `initializeFilters` (`useStore.ts` lines 263-271):
`totalOsCount` sums the version-list lengths over the OS catalog (the
`if (data.versions)` guard is always true for a well-typed catalog, arrays
being truthy), `totalPhpCount` counts the PHP version keys, `totalArchCount`
the architectures. -/
def initializeTotals (m : Metadata) : Totals :=
  { os := (m.osVersions.map fun e => e.2.versions.length).sum
    php := m.phpVersions.length
    arch := m.architectures.length }

/-- The full OS selection built by `initializeFilters`
(`useStore.ts` lines 284-293): one `"os|version"` entry per catalog pair, in
catalog order. -/
def initOsFilters (m : Metadata) : List String :=
  (m.osVersions.map fun e => e.2.versions.map fun v => e.1 ++ "|" ++ v).flatten

/-! ### Spec-side notions used to state claims -/

/-- The spec's notion of a facet selection being "non-default": a proper
subset of the known values, where both the empty array and an explicitly
populated full-selection array (length equal to the recorded facet total)
count as "all selected".  Written from the spec's words, to be compared with
the code's `needsBuildsLoaded`. -/
def properSubsetSelected (sel : List String) (total : Nat) : Bool :=
  sel.length != 0 && sel.length != total

/-- Replace a present-but-empty query value by an absent key. -/
def blankToNone : Option String → Option String
  | some v => if v = "" then none else some v
  | none => none

/-- Replace every present-but-empty query value by an absent key. -/
def dropBlankParams (p : UrlParams) : UrlParams :=
  { q := blankToNone p.q
    os := blankToNone p.os
    php := blankToNone p.php
    arch := blankToNone p.arch
    ext := blankToNone p.ext
    status := blankToNone p.status
    view := blankToNone p.view
    detail := blankToNone p.detail }

/-- Every build record attached to one of the models draws the given facet
key from `vals` (a model without builds attaches the empty list). -/
def buildsFacetWithin (key : BuildResult → String) (vals : List String)
    (exts : List ProcessedExtension) : Prop :=
  ∀ ext ∈ exts, ∀ b ∈ ext.builds.getD [], key b ∈ vals

/-- The `"platform|platform_version"` key used by the OS facet. -/
def osKey (b : BuildResult) : String :=
  b.platform ++ "|" ++ b.platform_version

/-! ### Concrete example data for counterexamples and witnesses -/

/-- A successful build on alpine 3.19 / PHP 8.3 / amd64. -/
def egBuildAlpine : BuildResult :=
  { extension := "redis", extension_version := "6.0.0", channel := "stable",
    php_version := "8.3", platform := "alpine", platform_version := "3.19",
    arch := "amd64", status := "success", started_at := "2024-01-01",
    finished_at := "2024-01-01", workflow_run_id := 1, run_attempt := 1,
    git_sha := "deadbeef", log_url := "http://logs/1", asset_name := "a1" }

/-- A failed build on debian 12 / PHP 8.3 / amd64. -/
def egBuildDebian : BuildResult :=
  { egBuildAlpine with
    platform := "debian", platform_version := "12",
    status := "failure", workflow_run_id := 2, asset_name := "a2" }

/-- A successful build on a platform absent from the catalog. -/
def egBuildUnknown : BuildResult :=
  { egBuildAlpine with
    platform := "ubuntu", platform_version := "24.04",
    workflow_run_id := 3, asset_name := "a3" }

/-- A small catalog: two OS/version pairs, two PHP versions, two
architectures. -/
def egMetadata : Metadata :=
  { osVersions :=
      [("alpine", { versions := ["3.19"], exclude := none }),
       ("debian", { versions := ["12"], exclude := none })]
    phpVersions := ["8.2", "8.3"]
    architectures := ["amd64", "arm64"] }

/-- The spec's `redis` aggregate record: 8 passes, 2 failures, 10 builds. -/
def egLatest : LatestExtension :=
  { path := "redis/6.0.0.json", version := "6.0.0",
    updated_at := "2024-01-01", pass := 8, fail := 2, total := 10 }

/-- An aggregate record whose `pass` exceeds its `total`. -/
def egLatestBad : LatestExtension :=
  { egLatest with pass := 2, fail := 0, total := 1 }

/-- The `redis` view model, with two attached build records. -/
def egExt : ProcessedExtension :=
  { name := "redis", version := "6.0.0", updated_at := "2024-01-01",
    pass := 8, fail := 2, total := 10, successRate := 80,
    path := "redis/6.0.0.json",
    builds := some [egBuildAlpine, egBuildDebian] }

/-- The `redis` view model without attached builds. -/
def egExtNoBuilds : ProcessedExtension :=
  { egExt with builds := none }

/-- The view model that `processExtensions` produces from `egLatest` with an
empty build cache. -/
def egProcessedRedis : ProcessedExtension :=
  { name := "redis"
    version := "6.0.0"
    updated_at := "2024-01-01"
    pass := 8
    fail := 2
    total := 10
    successRate := 80
    path := "redis/6.0.0.json"
    builds := none }

/-- A view model whose single build is on a platform absent from the
catalog. -/
def egExtUnknown : ProcessedExtension :=
  { egExt with builds := some [egBuildUnknown] }

/-- The spec's URL round-trip example: search `redis`, OS `alpine|3.19`,
status `failure`. -/
def egUrlState : StoreState :=
  { defaultStoreState with filters :=
      { defaultFilters with
        search := "redis", os := ["alpine|3.19"],
        status := Status.failure } }

/-! ## Theorems -/

/-- C8: `clearFilters()` resets the six facet fields to their defaults
(`[]`, `[]`, `[]`, `[]`, `'all'`, `''`) and leaves `currentView` and
`selectedExtension` unchanged. -/
theorem C8_clearFilters_resets_facets_only (s : StoreState) :
    (clearFilters s).filters.os = [] ∧
    (clearFilters s).filters.phpVersion = [] ∧
    (clearFilters s).filters.arch = [] ∧
    (clearFilters s).filters.extension = [] ∧
    (clearFilters s).filters.status = Status.all ∧
    (clearFilters s).filters.search = "" ∧
    (clearFilters s).currentView = s.currentView ∧
    (clearFilters s).selectedExtension = s.selectedExtension := by
  simp [clearFilters]

/-- C3, counterexample: with the catalog `egMetadata` loaded, populating the
OS facet with the full selection built by `initializeFilters` is the
"all selected" sentinel (not a proper subset), yet `needsBuildsLoaded()`
returns `true`, so it does not equal the spec's non-default test. -/
theorem C3_counterexample :
    ¬ (needsBuildsLoaded { defaultFilters with os := initOsFilters egMetadata } =
        (properSubsetSelected (initOsFilters egMetadata) (initializeTotals egMetadata).os ||
         properSubsetSelected [] (initializeTotals egMetadata).php ||
         properSubsetSelected [] (initializeTotals egMetadata).arch)) := by
  decide

/-- C3, amended: `needsBuildsLoaded()` returns `true` iff at least one of the
`os`, `phpVersion`, `arch` facet arrays is non-empty — an explicitly
populated full-selection array also makes it return `true`; immediately
after `clearFilters()` it returns `false`. -/
theorem C3_needsBuildsLoaded_nonempty (f : Filters) (s : StoreState) :
    (needsBuildsLoaded f = true ↔
      (f.os ≠ [] ∨ f.phpVersion ≠ [] ∨ f.arch ≠ [])) ∧
    needsBuildsLoaded (clearFilters s).filters = false := by
  constructor
  · simp [needsBuildsLoaded, List.length_pos, or_assoc]
  · simp [needsBuildsLoaded, clearFilters]

/-- C7: a `loadBuilds` call whose fetch fails returns `[]` and leaves the
cache without an entry for that path, so a subsequent call for the same path
takes the fetch branch again, and a later successful fetch stores its parsed
record list in the cache and returns it. -/
theorem C7_loadBuilds_failure_not_cached (cache : BuildCache) (path : String)
    (h : cacheGet cache path = none) :
    loadBuilds cache path none = (cache, []) ∧
    (∀ builds,
      loadBuilds (loadBuilds cache path none).1 path (some builds) =
        ((path, builds) :: cache, builds) ∧
      cacheGet (loadBuilds (loadBuilds cache path none).1 path (some builds)).1 path =
        some builds) := by
  have h' : List.lookup path cache = none := h
  refine ⟨by simp [loadBuilds, cacheGet, h'], fun builds => ?_⟩
  simp [loadBuilds, cacheGet, h', List.lookup]

/-- Witness for C7 at the empty cache and the path `"redis/6.0.0.json"`. -/
theorem C7_witness :
    cacheGet [] "redis/6.0.0.json" = none ∧
    loadBuilds [] "redis/6.0.0.json" none = ([], []) ∧
    loadBuilds (loadBuilds [] "redis/6.0.0.json" none).1 "redis/6.0.0.json"
        (some [egBuildAlpine]) =
      ([("redis/6.0.0.json", [egBuildAlpine])], [egBuildAlpine]) := by
  refine ⟨by simp [cacheGet, List.lookup], ?_, ?_⟩
  · exact (C7_loadBuilds_failure_not_cached [] "redis/6.0.0.json"
      (by simp [cacheGet, List.lookup])).1
  · exact ((C7_loadBuilds_failure_not_cached [] "redis/6.0.0.json"
      (by simp [cacheGet, List.lookup])).2 [egBuildAlpine]).1

/-- `mathRound100` computes the exact rational rounding
`round(100 * pass / total)` (Mathlib's `round` rounds half up, which agrees
with "ties away from zero" on non-negative values). -/
theorem mathRound100_eq_round (p t : Nat) (ht : t ≠ 0) :
    (mathRound100 p t : ℤ) = round ((100 * p : ℚ) / (t : ℚ)) := by
  have ht' : (t : ℚ) ≠ 0 := Nat.cast_ne_zero.mpr ht
  rw [round_eq]
  have h1 : (100 * p : ℚ) / (t : ℚ) + 1 / 2 =
      ((200 * p + t : ℕ) : ℚ) / ((2 * t : ℕ) : ℚ) := by
    push_cast
    field_simp
    ring
  rw [h1, Rat.floor_natCast_div_natCast]
  unfold mathRound100
  push_cast
  rfl

/-- `mathRound100` stays at most `100` when `pass ≤ total`. -/
theorem mathRound100_le_hundred (p t : Nat) (ht : t ≠ 0) (h : p ≤ t) :
    mathRound100 p t ≤ 100 := by
  unfold mathRound100
  have h2 : 0 < 2 * t := by omega
  have h3 : (200 * p + t) / (2 * t) < 101 :=
    (Nat.div_lt_iff_lt_mul h2).mpr (by omega)
  omega

/-- C5, counterexample: `processExtensions` on an aggregate record with
`pass = 2`, `total = 1` yields `successRate = 200`, outside `[0, 100]`. -/
theorem C5_counterexample :
    (processExtensions [] (some [("x", egLatestBad)])).map
        (fun p => p.successRate) = [200] ∧ ¬ (200 : Nat) ≤ 100 := by
  constructor
  · rfl
  · decide

/-- C5, amended: for every aggregate record, `processExtensions` sets
`successRate` to `0` when `total = 0` and otherwise to
`round(100 * pass / total)` (ties half away from zero); the result is an
integer in `[0, 100]` provided `pass ≤ total` — a malformed record with
`pass > total` yields a value above `100`. -/
theorem C5_successRate_rounding (cache : BuildCache)
    (entries : List (String × LatestExtension)) (p : ProcessedExtension)
    (hmem : p ∈ processExtensions cache (some entries)) :
    ∃ e ∈ entries, p.name = e.1 ∧ p.pass = e.2.pass ∧ p.total = e.2.total ∧
      (e.2.total = 0 → p.successRate = 0) ∧
      (e.2.total ≠ 0 →
        (p.successRate : ℤ) = round ((100 * e.2.pass : ℚ) / (e.2.total : ℚ)) ∧
        (e.2.pass ≤ e.2.total → p.successRate ≤ 100)) := by
  simp only [processExtensions, List.mem_map] at hmem
  obtain ⟨e, he, rfl⟩ := hmem
  refine ⟨e, he, rfl, rfl, rfl, ?_, ?_⟩
  · intro h0
    simp [h0]
  · intro h0
    have hpos : 0 < e.2.total := Nat.pos_of_ne_zero h0
    constructor
    · simp only [if_pos hpos]
      exact mathRound100_eq_round e.2.pass e.2.total h0
    · intro hle
      simp only [if_pos hpos]
      exact mathRound100_le_hundred e.2.pass e.2.total h0 hle

/-- Witness for C5 at the spec's `redis` record (`pass 8`, `fail 2`,
`total 10`), whose computed rate is `80`. -/
theorem C5_witness :
    egProcessedRedis ∈ processExtensions [] (some [("redis", egLatest)]) ∧
    (∃ e ∈ [("redis", egLatest)], egProcessedRedis.name = e.1 ∧
      egProcessedRedis.pass = e.2.pass ∧ egProcessedRedis.total = e.2.total ∧
      (e.2.total = 0 → egProcessedRedis.successRate = 0) ∧
      (e.2.total ≠ 0 →
        (egProcessedRedis.successRate : ℤ) =
          round ((100 * e.2.pass : ℚ) / (e.2.total : ℚ)) ∧
        (e.2.pass ≤ e.2.total → egProcessedRedis.successRate ≤ 100))) := by
  have hmem : egProcessedRedis ∈ processExtensions [] (some [("redis", egLatest)]) := by
    simp [processExtensions, egLatest, egProcessedRedis, mathRound100, cacheGet,
      List.lookup]
  exact ⟨hmem, C5_successRate_rounding [] [("redis", egLatest)] _ hmem⟩

/-- C4: with no effective detail filters, a model passing the name-level
predicates is dropped iff (`status = 'success'` and `fail > 0`) or
(`status = 'failure'` and `fail = 0`), and is otherwise returned unmodified
(aggregate `pass`, `fail`, `total`, `successRate` untouched). -/
theorem C4_coarse_status_filter (f : Filters) (t : Totals)
    (ext : ProcessedExtension) (hd : hasDetailFilters f t = false)
    (hn : extNameMatches f ext = true) :
    filterExtensions f t [ext] =
      if (f.status = Status.success ∧ 0 < ext.fail) ∨
          (f.status = Status.failure ∧ ext.fail = 0)
      then [] else [ext] := by
  have h1 : List.filter (extNameMatches f) [ext] = [ext] := by simp [hn]
  rw [filterExtensions, hd, h1]
  simp only [List.filterMap_cons, List.filterMap_nil]
  unfold refineExtension
  cases hs : f.status <;>
    by_cases hf : ext.fail = 0 <;>
      simp [hs, hf, Nat.pos_of_ne_zero]

/-- Witness for C4: with default filters except `status = 'failure'` and the
catalog totals of `egMetadata`, the `redis` aggregate (`fail = 2`) is
retained unmodified. -/
theorem C4_witness :
    hasDetailFilters { defaultFilters with status := Status.failure }
        (initializeTotals egMetadata) = false ∧
    extNameMatches { defaultFilters with status := Status.failure }
        egExtNoBuilds = true ∧
    filterExtensions { defaultFilters with status := Status.failure }
        (initializeTotals egMetadata) [egExtNoBuilds] =
      if (({ defaultFilters with status := Status.failure } : Filters).status =
            Status.success ∧ 0 < egExtNoBuilds.fail) ∨
          (({ defaultFilters with status := Status.failure } : Filters).status =
            Status.failure ∧ egExtNoBuilds.fail = 0)
      then [] else [egExtNoBuilds] := by
  refine ⟨by decide, by decide, ?_⟩
  exact C4_coarse_status_filter _ _ _ (by decide) (by decide)

/-- C1: with detail filters active, a model passing the name-level
predicates and carrying builds is dropped entirely when `filterBuilds`
leaves nothing, and otherwise returned with `pass`, `fail`, `total`,
`successRate` and `builds` recomputed from the surviving build subset:
`pass` counts surviving `'success'` records, `fail` surviving `'failure'`
records, `total` is the surviving count, and `successRate` is recomputed
from those counts. -/
theorem C1_detail_recompute (f : Filters) (t : Totals)
    (ext : ProcessedExtension) (bs : List BuildResult)
    (hd : hasDetailFilters f t = true) (hn : extNameMatches f ext = true)
    (hb : ext.builds = some bs) :
    (filterBuilds f bs = [] → filterExtensions f t [ext] = []) ∧
    (filterBuilds f bs ≠ [] →
      filterExtensions f t [ext] =
        [{ ext with
            pass := (filterBuilds f bs).countP fun b => b.status == "success"
            fail := (filterBuilds f bs).countP fun b => b.status == "failure"
            total := (filterBuilds f bs).length
            successRate := mathRound100
              ((filterBuilds f bs).countP fun b => b.status == "success")
              (filterBuilds f bs).length
            builds := some (filterBuilds f bs) }]) := by
  have h1 : List.filter (extNameMatches f) [ext] = [ext] := by simp [hn]
  constructor
  · intro h0
    rw [filterExtensions, hd, h1]
    simp only [List.filterMap_cons, List.filterMap_nil]
    unfold refineExtension
    simp [hb, h0]
  · intro h0
    have hlen : (filterBuilds f bs).length ≠ 0 := by
      simpa [List.length_eq_zero] using h0
    rw [filterExtensions, hd, h1]
    simp only [List.filterMap_cons, List.filterMap_nil]
    unfold refineExtension
    simp [hb, hlen, List.countP_eq_length_filter, Nat.pos_of_ne_zero hlen]

/-- Witness for C1: OS filter `["alpine|3.19"]` (a proper subset of the
`egMetadata` catalog) against the `redis` model with one alpine and one
debian build; the debian build is filtered out and the counts are recomputed
from the surviving alpine record. -/
theorem C1_witness :
    hasDetailFilters { defaultFilters with os := ["alpine|3.19"] }
        (initializeTotals egMetadata) = true ∧
    extNameMatches { defaultFilters with os := ["alpine|3.19"] } egExt = true ∧
    egExt.builds = some [egBuildAlpine, egBuildDebian] ∧
    filterBuilds { defaultFilters with os := ["alpine|3.19"] }
        [egBuildAlpine, egBuildDebian] ≠ [] ∧
    filterExtensions { defaultFilters with os := ["alpine|3.19"] }
        (initializeTotals egMetadata) [egExt] =
      [{ egExt with
          pass := 1
          fail := 0
          total := 1
          successRate := 100
          builds := some [egBuildAlpine] }] := by
  refine ⟨by decide, by decide, rfl, by decide, ?_⟩
  have h := (C1_detail_recompute { defaultFilters with os := ["alpine|3.19"] }
      (initializeTotals egMetadata) egExt [egBuildAlpine, egBuildDebian]
      (by decide) (by decide) rfl).2 (by decide)
  rw [h]
  decide

/-- The surviving builds of a list whose statuses are all `'success'` or
`'failure'` split exactly into the success count and the failure count. -/
theorem length_filter_status_add (l : List BuildResult)
    (h : ∀ b ∈ l, b.status = "success" ∨ b.status = "failure") :
    (l.filter fun b => b.status == "success").length +
      (l.filter fun b => b.status == "failure").length = l.length := by
  induction l with
  | nil => simp
  | cons b l ih =>
    have hl := fun x hx => h x (List.mem_cons_of_mem b hx)
    have ih' := ih hl
    rcases h b (List.mem_cons_self b l) with hs | hf
    · simp [List.filter_cons, hs]
      omega
    · simp [List.filter_cons, hf]
      omega

/-- C10: every model returned through the detail-recomputation branch has a
non-empty builds list whose length equals its `total`, and — when every
input build status is `'success'` or `'failure'` — satisfies
`pass + fail = total`. -/
theorem C10_detail_branch_invariant (f : Filters) (t : Totals)
    (ext p : ProcessedExtension) (bs : List BuildResult)
    (hd : hasDetailFilters f t = true) (hb : ext.builds = some bs)
    (hst : ∀ b ∈ bs, b.status = "success" ∨ b.status = "failure")
    (hp : p ∈ filterExtensions f t [ext]) :
    ∃ fb : List BuildResult, p.builds = some fb ∧ p.total = fb.length ∧
      1 ≤ p.total ∧ p.pass + p.fail = p.total := by
  by_cases hn : extNameMatches f ext = true
  · have h1 : List.filter (extNameMatches f) [ext] = [ext] := by simp [hn]
    rw [filterExtensions, hd, h1] at hp
    simp only [List.filterMap_cons, List.filterMap_nil] at hp
    unfold refineExtension at hp
    by_cases h0 : (filterBuilds f bs).length = 0
    · simp [hb, h0] at hp
    · simp [hb, h0] at hp
      subst hp
      refine ⟨filterBuilds f bs, rfl, rfl, by simpa using Nat.pos_of_ne_zero h0, ?_⟩
      simp only
      have hsub : ∀ b ∈ filterBuilds f bs, b.status = "success" ∨ b.status = "failure" :=
        fun b hbmem => hst b (List.mem_of_mem_filter hbmem)
      simpa using length_filter_status_add (filterBuilds f bs) hsub
  · have h1 : List.filter (extNameMatches f) [ext] = [] := by
      simp [List.filter, Bool.eq_false_iff.mpr hn]
    rw [filterExtensions, h1] at hp
    simp at hp

/-- Witness for C10 at the same concrete scenario as the OS-filter example:
the surviving model carries one build, `total = 1`, `pass + fail = 1`. -/
theorem C10_witness :
    hasDetailFilters { defaultFilters with os := ["alpine|3.19"] }
        (initializeTotals egMetadata) = true ∧
    egExt.builds = some [egBuildAlpine, egBuildDebian] ∧
    (∀ b ∈ [egBuildAlpine, egBuildDebian],
      b.status = "success" ∨ b.status = "failure") ∧
    ({ egExt with
        pass := 1
        fail := 0
        total := 1
        successRate := 100
        builds := some [egBuildAlpine] } : ProcessedExtension) ∈
      filterExtensions { defaultFilters with os := ["alpine|3.19"] }
        (initializeTotals egMetadata) [egExt] ∧
    (∃ fb : List BuildResult,
      ({ egExt with
          pass := 1
          fail := 0
          total := 1
          successRate := 100
          builds := some [egBuildAlpine] } : ProcessedExtension).builds = some fb ∧
      (1 : Nat) = fb.length ∧ (1 : Nat) ≤ 1 ∧ (1 : Nat) + 0 = 1) := by
  refine ⟨by decide, rfl, by decide, by decide, ?_⟩
  exact C10_detail_branch_invariant { defaultFilters with os := ["alpine|3.19"] }
    (initializeTotals egMetadata) egExt _ [egBuildAlpine, egBuildDebian]
    (by decide) rfl (by decide) (by decide)

/-! ### Frame and effect lemmas for the URL-loading steps -/

/-- `applyQ` only writes `filters.search`. -/
theorem applyQ_frame (p : UrlParams) (s : StoreState) :
    (applyQ p s).filters.os = s.filters.os ∧
    (applyQ p s).filters.phpVersion = s.filters.phpVersion ∧
    (applyQ p s).filters.arch = s.filters.arch ∧
    (applyQ p s).filters.extension = s.filters.extension ∧
    (applyQ p s).filters.status = s.filters.status ∧
    (applyQ p s).currentView = s.currentView ∧
    (applyQ p s).selectedExtension = s.selectedExtension := by
  unfold applyQ
  cases p.q with
  | none => exact ⟨rfl, rfl, rfl, rfl, rfl, rfl, rfl⟩
  | some v => by_cases h : v = "" <;> simp [h]

/-- The effect of `applyQ` on `filters.search`. -/
theorem applyQ_search (p : UrlParams) (s : StoreState) :
    (applyQ p s).filters.search =
      (match p.q with
        | some v => if v = "" then s.filters.search else v
        | none => s.filters.search) := by
  unfold applyQ
  cases p.q with
  | none => rfl
  | some v => by_cases h : v = "" <;> simp [h]

/-- `applyOs` only writes `filters.os`. -/
theorem applyOs_frame (p : UrlParams) (s : StoreState) :
    (applyOs p s).filters.search = s.filters.search ∧
    (applyOs p s).filters.phpVersion = s.filters.phpVersion ∧
    (applyOs p s).filters.arch = s.filters.arch ∧
    (applyOs p s).filters.extension = s.filters.extension ∧
    (applyOs p s).filters.status = s.filters.status ∧
    (applyOs p s).currentView = s.currentView ∧
    (applyOs p s).selectedExtension = s.selectedExtension := by
  unfold applyOs
  cases p.os with
  | none => exact ⟨rfl, rfl, rfl, rfl, rfl, rfl, rfl⟩
  | some v => by_cases h : v = "" <;> simp [h]

/-- The effect of `applyOs` on `filters.os`. -/
theorem applyOs_os (p : UrlParams) (s : StoreState) :
    (applyOs p s).filters.os =
      (match p.os with
        | some v => if v = "" then s.filters.os else jsSplitComma v
        | none => s.filters.os) := by
  unfold applyOs
  cases p.os with
  | none => rfl
  | some v => by_cases h : v = "" <;> simp [h]

/-- `applyPhp` only writes `filters.phpVersion`. -/
theorem applyPhp_frame (p : UrlParams) (s : StoreState) :
    (applyPhp p s).filters.search = s.filters.search ∧
    (applyPhp p s).filters.os = s.filters.os ∧
    (applyPhp p s).filters.arch = s.filters.arch ∧
    (applyPhp p s).filters.extension = s.filters.extension ∧
    (applyPhp p s).filters.status = s.filters.status ∧
    (applyPhp p s).currentView = s.currentView ∧
    (applyPhp p s).selectedExtension = s.selectedExtension := by
  unfold applyPhp
  cases p.php with
  | none => exact ⟨rfl, rfl, rfl, rfl, rfl, rfl, rfl⟩
  | some v => by_cases h : v = "" <;> simp [h]

/-- The effect of `applyPhp` on `filters.phpVersion`. -/
theorem applyPhp_php (p : UrlParams) (s : StoreState) :
    (applyPhp p s).filters.phpVersion =
      (match p.php with
        | some v => if v = "" then s.filters.phpVersion else jsSplitComma v
        | none => s.filters.phpVersion) := by
  unfold applyPhp
  cases p.php with
  | none => rfl
  | some v => by_cases h : v = "" <;> simp [h]

/-- `applyArch` only writes `filters.arch`. -/
theorem applyArch_frame (p : UrlParams) (s : StoreState) :
    (applyArch p s).filters.search = s.filters.search ∧
    (applyArch p s).filters.os = s.filters.os ∧
    (applyArch p s).filters.phpVersion = s.filters.phpVersion ∧
    (applyArch p s).filters.extension = s.filters.extension ∧
    (applyArch p s).filters.status = s.filters.status ∧
    (applyArch p s).currentView = s.currentView ∧
    (applyArch p s).selectedExtension = s.selectedExtension := by
  unfold applyArch
  cases p.arch with
  | none => exact ⟨rfl, rfl, rfl, rfl, rfl, rfl, rfl⟩
  | some v => by_cases h : v = "" <;> simp [h]

/-- The effect of `applyArch` on `filters.arch`. -/
theorem applyArch_arch (p : UrlParams) (s : StoreState) :
    (applyArch p s).filters.arch =
      (match p.arch with
        | some v => if v = "" then s.filters.arch else jsSplitComma v
        | none => s.filters.arch) := by
  unfold applyArch
  cases p.arch with
  | none => rfl
  | some v => by_cases h : v = "" <;> simp [h]

/-- `applyExt` only writes `filters.extension`. -/
theorem applyExt_frame (p : UrlParams) (s : StoreState) :
    (applyExt p s).filters.search = s.filters.search ∧
    (applyExt p s).filters.os = s.filters.os ∧
    (applyExt p s).filters.phpVersion = s.filters.phpVersion ∧
    (applyExt p s).filters.arch = s.filters.arch ∧
    (applyExt p s).filters.status = s.filters.status ∧
    (applyExt p s).currentView = s.currentView ∧
    (applyExt p s).selectedExtension = s.selectedExtension := by
  unfold applyExt
  cases p.ext with
  | none => exact ⟨rfl, rfl, rfl, rfl, rfl, rfl, rfl⟩
  | some v => by_cases h : v = "" <;> simp [h]

/-- The effect of `applyExt` on `filters.extension`. -/
theorem applyExt_ext (p : UrlParams) (s : StoreState) :
    (applyExt p s).filters.extension =
      (match p.ext with
        | some v => if v = "" then s.filters.extension else jsSplitComma v
        | none => s.filters.extension) := by
  unfold applyExt
  cases p.ext with
  | none => rfl
  | some v => by_cases h : v = "" <;> simp [h]

/-- `applyStatus` only writes `filters.status`. -/
theorem applyStatus_frame (p : UrlParams) (s : StoreState) :
    (applyStatus p s).filters.search = s.filters.search ∧
    (applyStatus p s).filters.os = s.filters.os ∧
    (applyStatus p s).filters.phpVersion = s.filters.phpVersion ∧
    (applyStatus p s).filters.arch = s.filters.arch ∧
    (applyStatus p s).filters.extension = s.filters.extension ∧
    (applyStatus p s).currentView = s.currentView ∧
    (applyStatus p s).selectedExtension = s.selectedExtension := by
  unfold applyStatus
  cases p.status with
  | none => exact ⟨rfl, rfl, rfl, rfl, rfl, rfl, rfl⟩
  | some v =>
    by_cases h1 : v = "success" <;> by_cases h2 : v = "failure" <;> simp [h1, h2]

/-- The effect of `applyStatus` on `filters.status`. -/
theorem applyStatus_status (p : UrlParams) (s : StoreState) :
    (applyStatus p s).filters.status =
      (match p.status with
        | some v =>
          if v = "success" then Status.success
          else if v = "failure" then Status.failure
          else s.filters.status
        | none => s.filters.status) := by
  unfold applyStatus
  cases p.status with
  | none => rfl
  | some v =>
    by_cases h1 : v = "success" <;> by_cases h2 : v = "failure" <;> simp [h1, h2]

/-- `applyView` only writes `currentView`. -/
theorem applyView_frame (p : UrlParams) (s : StoreState) :
    (applyView p s).filters = s.filters ∧
    (applyView p s).selectedExtension = s.selectedExtension := by
  unfold applyView
  cases p.view with
  | none => exact ⟨rfl, rfl⟩
  | some v =>
    by_cases h1 : v = "grid" <;> by_cases h2 : v = "list" <;> simp [h1, h2]

/-- The effect of `applyView` on `currentView`. -/
theorem applyView_view (p : UrlParams) (s : StoreState) :
    (applyView p s).currentView =
      (match p.view with
        | some v =>
          if v = "grid" then View.grid
          else if v = "list" then View.list
          else s.currentView
        | none => s.currentView) := by
  unfold applyView
  cases p.view with
  | none => rfl
  | some v =>
    by_cases h1 : v = "grid" <;> by_cases h2 : v = "list" <;> simp [h1, h2]

/-- `applyDetail` only writes `selectedExtension`. -/
theorem applyDetail_frame (p : UrlParams) (s : StoreState) :
    (applyDetail p s).filters = s.filters ∧
    (applyDetail p s).currentView = s.currentView := by
  unfold applyDetail
  cases p.detail with
  | none => exact ⟨rfl, rfl⟩
  | some v => by_cases h : v = "" <;> simp [h]

/-- The effect of `applyDetail` on `selectedExtension`. -/
theorem applyDetail_detail (p : UrlParams) (s : StoreState) :
    (applyDetail p s).selectedExtension =
      (match p.detail with
        | some v => if v = "" then s.selectedExtension else some v
        | none => s.selectedExtension) := by
  unfold applyDetail
  cases p.detail with
  | none => rfl
  | some v => by_cases h : v = "" <;> simp [h]

/-- The final `filters.search` produced by `loadFromUrl`. -/
theorem loadFromUrl_search (p : UrlParams) (s : StoreState) :
    (loadFromUrl p s).filters.search =
      (match p.q with
        | some v => if v = "" then s.filters.search else v
        | none => s.filters.search) := by
  unfold loadFromUrl
  rw [(applyDetail_frame p _).1, (applyView_frame p _).1,
    (applyStatus_frame p _).1, (applyExt_frame p _).1, (applyArch_frame p _).1,
    (applyPhp_frame p _).1, (applyOs_frame p _).1, applyQ_search]

/-- The final `filters.os` produced by `loadFromUrl`. -/
theorem loadFromUrl_os (p : UrlParams) (s : StoreState) :
    (loadFromUrl p s).filters.os =
      (match p.os with
        | some v => if v = "" then s.filters.os else jsSplitComma v
        | none => s.filters.os) := by
  unfold loadFromUrl
  rw [(applyDetail_frame p _).1, (applyView_frame p _).1,
    (applyStatus_frame p _).2.1, (applyExt_frame p _).2.1,
    (applyArch_frame p _).2.1, (applyPhp_frame p _).2.1, applyOs_os,
    (applyQ_frame p _).1]

/-- The final `filters.phpVersion` produced by `loadFromUrl`. -/
theorem loadFromUrl_php (p : UrlParams) (s : StoreState) :
    (loadFromUrl p s).filters.phpVersion =
      (match p.php with
        | some v => if v = "" then s.filters.phpVersion else jsSplitComma v
        | none => s.filters.phpVersion) := by
  unfold loadFromUrl
  rw [(applyDetail_frame p _).1, (applyView_frame p _).1,
    (applyStatus_frame p _).2.2.1, (applyExt_frame p _).2.2.1,
    (applyArch_frame p _).2.2.1, applyPhp_php, (applyOs_frame p _).2.1,
    (applyQ_frame p _).2.1]

/-- The final `filters.arch` produced by `loadFromUrl`. -/
theorem loadFromUrl_arch (p : UrlParams) (s : StoreState) :
    (loadFromUrl p s).filters.arch =
      (match p.arch with
        | some v => if v = "" then s.filters.arch else jsSplitComma v
        | none => s.filters.arch) := by
  unfold loadFromUrl
  rw [(applyDetail_frame p _).1, (applyView_frame p _).1,
    (applyStatus_frame p _).2.2.2.1, (applyExt_frame p _).2.2.2.1,
    applyArch_arch, (applyPhp_frame p _).2.2.1, (applyOs_frame p _).2.2.1,
    (applyQ_frame p _).2.2.1]

/-- The final `filters.extension` produced by `loadFromUrl`. -/
theorem loadFromUrl_ext (p : UrlParams) (s : StoreState) :
    (loadFromUrl p s).filters.extension =
      (match p.ext with
        | some v => if v = "" then s.filters.extension else jsSplitComma v
        | none => s.filters.extension) := by
  unfold loadFromUrl
  rw [(applyDetail_frame p _).1, (applyView_frame p _).1,
    (applyStatus_frame p _).2.2.2.2.1, applyExt_ext,
    (applyArch_frame p _).2.2.2.1, (applyPhp_frame p _).2.2.2.1,
    (applyOs_frame p _).2.2.2.1, (applyQ_frame p _).2.2.2.1]

/-- The final `filters.status` produced by `loadFromUrl`: applied only when
the query value is exactly `success` or `failure`. -/
theorem loadFromUrl_status (p : UrlParams) (s : StoreState) :
    (loadFromUrl p s).filters.status =
      (match p.status with
        | some v =>
          if v = "success" then Status.success
          else if v = "failure" then Status.failure
          else s.filters.status
        | none => s.filters.status) := by
  unfold loadFromUrl
  rw [(applyDetail_frame p _).1, (applyView_frame p _).1, applyStatus_status,
    (applyExt_frame p _).2.2.2.2.1, (applyArch_frame p _).2.2.2.2.1,
    (applyPhp_frame p _).2.2.2.2.1, (applyOs_frame p _).2.2.2.2.1,
    (applyQ_frame p _).2.2.2.2.1]

/-- The final `currentView` produced by `loadFromUrl`: applied only when the
query value is exactly `grid` or `list`. -/
theorem loadFromUrl_view (p : UrlParams) (s : StoreState) :
    (loadFromUrl p s).currentView =
      (match p.view with
        | some v =>
          if v = "grid" then View.grid
          else if v = "list" then View.list
          else s.currentView
        | none => s.currentView) := by
  unfold loadFromUrl
  rw [(applyDetail_frame p _).2, applyView_view,
    (applyStatus_frame p _).2.2.2.2.2.1, (applyExt_frame p _).2.2.2.2.2.1,
    (applyArch_frame p _).2.2.2.2.2.1, (applyPhp_frame p _).2.2.2.2.2.1,
    (applyOs_frame p _).2.2.2.2.2.1, (applyQ_frame p _).2.2.2.2.2.1]

/-- The final `selectedExtension` produced by `loadFromUrl`. -/
theorem loadFromUrl_detail (p : UrlParams) (s : StoreState) :
    (loadFromUrl p s).selectedExtension =
      (match p.detail with
        | some v => if v = "" then s.selectedExtension else some v
        | none => s.selectedExtension) := by
  unfold loadFromUrl
  rw [applyDetail_detail, (applyView_frame p _).2,
    (applyStatus_frame p _).2.2.2.2.2.2, (applyExt_frame p _).2.2.2.2.2.2,
    (applyArch_frame p _).2.2.2.2.2.2, (applyPhp_frame p _).2.2.2.2.2.2,
    (applyOs_frame p _).2.2.2.2.2.2, (applyQ_frame p _).2.2.2.2.2.2]

/-- Two store states agreeing on all eight leaf fields are equal. -/
theorem storeState_ext {a b : StoreState}
    (h1 : a.filters.search = b.filters.search)
    (h2 : a.filters.os = b.filters.os)
    (h3 : a.filters.phpVersion = b.filters.phpVersion)
    (h4 : a.filters.arch = b.filters.arch)
    (h5 : a.filters.extension = b.filters.extension)
    (h6 : a.filters.status = b.filters.status)
    (h7 : a.currentView = b.currentView)
    (h8 : a.selectedExtension = b.selectedExtension) : a = b := by
  obtain ⟨⟨o1, p1, a1, e1, t1, s1⟩, v1, d1⟩ := a
  obtain ⟨⟨o2, p2, a2, e2, t2, s2⟩, v2, d2⟩ := b
  simp_all

/-- C9: `loadFromUrl` ignores a `status` query value other than `'success'`
or `'failure'` and a `view` value other than `'grid'` or `'list'`, keeping
the defaults `'all'` and `'list'`; and a key present with an empty value
behaves exactly like an absent key, for every key and every starting
state. -/
theorem C9_loadFromUrl_ignores_invalid (p : UrlParams) :
    (∀ v, p.status = some v → v ≠ "success" → v ≠ "failure" →
      (loadFromUrl p defaultStoreState).filters.status = Status.all) ∧
    (∀ v, p.view = some v → v ≠ "grid" → v ≠ "list" →
      (loadFromUrl p defaultStoreState).currentView = View.list) ∧
    (∀ s : StoreState, loadFromUrl (dropBlankParams p) s = loadFromUrl p s) := by
  refine ⟨?_, ?_, ?_⟩
  · intro v hv h1 h2
    rw [loadFromUrl_status, hv]
    simp [h1, h2, defaultStoreState, defaultFilters]
  · intro v hv h1 h2
    rw [loadFromUrl_view, hv]
    simp [h1, h2, defaultStoreState]
  · intro s
    apply storeState_ext
    · rw [loadFromUrl_search, loadFromUrl_search]
      show (match blankToNone p.q with
        | some v => if v = "" then s.filters.search else v
        | none => s.filters.search) = _
      cases p.q with
      | none => rfl
      | some v => by_cases h : v = "" <;> simp [blankToNone, h]
    · rw [loadFromUrl_os, loadFromUrl_os]
      show (match blankToNone p.os with
        | some v => if v = "" then s.filters.os else jsSplitComma v
        | none => s.filters.os) = _
      cases p.os with
      | none => rfl
      | some v => by_cases h : v = "" <;> simp [blankToNone, h]
    · rw [loadFromUrl_php, loadFromUrl_php]
      show (match blankToNone p.php with
        | some v => if v = "" then s.filters.phpVersion else jsSplitComma v
        | none => s.filters.phpVersion) = _
      cases p.php with
      | none => rfl
      | some v => by_cases h : v = "" <;> simp [blankToNone, h]
    · rw [loadFromUrl_arch, loadFromUrl_arch]
      show (match blankToNone p.arch with
        | some v => if v = "" then s.filters.arch else jsSplitComma v
        | none => s.filters.arch) = _
      cases p.arch with
      | none => rfl
      | some v => by_cases h : v = "" <;> simp [blankToNone, h]
    · rw [loadFromUrl_ext, loadFromUrl_ext]
      show (match blankToNone p.ext with
        | some v => if v = "" then s.filters.extension else jsSplitComma v
        | none => s.filters.extension) = _
      cases p.ext with
      | none => rfl
      | some v => by_cases h : v = "" <;> simp [blankToNone, h]
    · rw [loadFromUrl_status, loadFromUrl_status]
      show (match blankToNone p.status with
        | some v =>
          if v = "success" then Status.success
          else if v = "failure" then Status.failure
          else s.filters.status
        | none => s.filters.status) = _
      cases p.status with
      | none => rfl
      | some v => by_cases h : v = "" <;> simp [blankToNone, h]
    · rw [loadFromUrl_view, loadFromUrl_view]
      show (match blankToNone p.view with
        | some v =>
          if v = "grid" then View.grid
          else if v = "list" then View.list
          else s.currentView
        | none => s.currentView) = _
      cases p.view with
      | none => rfl
      | some v => by_cases h : v = "" <;> simp [blankToNone, h]
    · rw [loadFromUrl_detail, loadFromUrl_detail]
      show (match blankToNone p.detail with
        | some v => if v = "" then s.selectedExtension else some v
        | none => s.selectedExtension) = _
      cases p.detail with
      | none => rfl
      | some v => by_cases h : v = "" <;> simp [blankToNone, h]

/-- Witness for C9 at a query carrying `status=bogus`, `view=weird` and an
empty `q` value: defaults are retained and the blank `q` acts as absent. -/
theorem C9_witness :
    (({ q := some "", os := none, php := none, arch := none, ext := none,
        status := some "bogus", view := some "weird", detail := none } :
          UrlParams).status = some "bogus") ∧
    ("bogus" : String) ≠ "success" ∧ ("bogus" : String) ≠ "failure" ∧
    (loadFromUrl
        { q := some "", os := none, php := none, arch := none, ext := none,
          status := some "bogus", view := some "weird", detail := none }
        defaultStoreState).filters.status = Status.all ∧
    (loadFromUrl
        { q := some "", os := none, php := none, arch := none, ext := none,
          status := some "bogus", view := some "weird", detail := none }
        defaultStoreState).currentView = View.list ∧
    loadFromUrl
        (dropBlankParams
          { q := some "", os := none, php := none, arch := none, ext := none,
            status := some "bogus", view := some "weird", detail := none })
        defaultStoreState =
      loadFromUrl
        { q := some "", os := none, php := none, arch := none, ext := none,
          status := some "bogus", view := some "weird", detail := none }
        defaultStoreState := by
  refine ⟨rfl, by decide, by decide, ?_, ?_, ?_⟩
  · exact (C9_loadFromUrl_ignores_invalid _).1 "bogus" rfl (by decide) (by decide)
  · exact (C9_loadFromUrl_ignores_invalid _).2.1 "weird" rfl (by decide) (by decide)
  · exact (C9_loadFromUrl_ignores_invalid _).2.2 defaultStoreState

/-! ### Comma split/join round trip -/

/-- Splitting a comma-free chunk followed by a comma emits the chunk. -/
theorem jsSplitCommaAux_append_comma (xs : List Char) (h : ',' ∉ xs)
    (acc rest : List Char) :
    jsSplitCommaAux acc (xs ++ ',' :: rest) =
      String.mk (acc.reverse ++ xs) :: jsSplitCommaAux [] rest := by
  induction xs generalizing acc with
  | nil => simp [jsSplitCommaAux]
  | cons c cs ih =>
    have hc : c ≠ ',' := fun hcc => h (hcc ▸ List.mem_cons_self c cs)
    have h' : ',' ∉ cs := fun hm => h (List.mem_cons_of_mem c hm)
    simp only [List.cons_append, jsSplitCommaAux, if_neg hc, List.append_eq]
    rw [ih h' (c :: acc)]
    simp

/-- Splitting a comma-free tail emits a single final chunk. -/
theorem jsSplitCommaAux_no_comma (xs : List Char) (h : ',' ∉ xs)
    (acc : List Char) :
    jsSplitCommaAux acc xs = [String.mk (acc.reverse ++ xs)] := by
  induction xs generalizing acc with
  | nil => simp [jsSplitCommaAux]
  | cons c cs ih =>
    have hc : c ≠ ',' := fun hcc => h (hcc ▸ List.mem_cons_self c cs)
    have h' : ',' ∉ cs := fun hm => h (List.mem_cons_of_mem c hm)
    simp only [jsSplitCommaAux, if_neg hc]
    rw [ih h' (c :: acc)]
    simp

/-- `split(',')` undoes `join(',')` on a non-empty list of comma-free
entries. -/
theorem jsSplitComma_jsJoinComma (l : List String) (hne : l ≠ [])
    (h : ∀ x ∈ l, ',' ∉ x.data) :
    jsSplitComma (jsJoinComma l) = l := by
  induction l with
  | nil => cases hne rfl
  | cons x xs ih =>
    cases xs with
    | nil =>
      show jsSplitCommaAux [] x.data = [x]
      rw [jsSplitCommaAux_no_comma x.data (h x (by simp)) []]
      simp
    | cons y ys =>
      have hx : ',' ∉ x.data := h x (by simp)
      have hrest : ∀ z ∈ y :: ys, ',' ∉ z.data :=
        fun z hz => h z (List.mem_cons_of_mem x hz)
      have hdata : (jsJoinComma (x :: y :: ys)).data =
          x.data ++ ',' :: (jsJoinComma (y :: ys)).data := by
        show (x ++ "," ++ jsJoinComma (y :: ys)).data = _
        rw [String.data_append, String.data_append]
        simp [show (("," : String)).data = [','] from rfl]
      show jsSplitCommaAux [] (jsJoinComma (x :: y :: ys)).data = x :: y :: ys
      rw [hdata, jsSplitCommaAux_append_comma x.data hx []]
      have h2 : jsSplitComma (jsJoinComma (y :: ys)) = y :: ys :=
        ih (by simp) hrest
      rw [show jsSplitCommaAux [] (jsJoinComma (y :: ys)).data =
        jsSplitComma (jsJoinComma (y :: ys)) from rfl, h2]
      simp

/-- Joining a list whose head is non-empty yields a non-empty string. -/
theorem jsJoinComma_ne_empty (x : String) (xs : List String) (hx : x ≠ "") :
    jsJoinComma (x :: xs) ≠ "" := by
  cases xs with
  | nil => simpa [jsJoinComma] using hx
  | cons y ys =>
    show x ++ "," ++ jsJoinComma (y :: ys) ≠ ""
    intro he
    have hd := congrArg String.data he
    rw [String.data_append, String.data_append] at hd
    simp [show (("," : String)).data = [','] from rfl] at hd

/-- C6, counterexample: the reachable state obtained from the default state
by `setFilter('os', ['a,b'])` does not survive the URL round trip — the
comma inside the single entry is reparsed as a separator, yielding
`['a', 'b']`. -/
theorem C6_counterexample :
    loadFromUrl
        (syncToUrl (setFilter defaultStoreState (FilterUpdate.os ["a,b"])))
        defaultStoreState ≠
      setFilter defaultStoreState (FilterUpdate.os ["a,b"]) := by
  decide

/-- C6, amended: the URL round trip (serialize with `syncToUrl`, reparse
with `loadFromUrl` over the default state) restores the state exactly,
provided every entry of the four array facets is a non-empty string without
a comma and `selectedExtension` is not the empty string; states violating
these conditions (reachable via `setFilter`) need not round-trip. -/
theorem C6_url_roundtrip (s : StoreState)
    (hos : ∀ x ∈ s.filters.os, x ≠ "" ∧ ',' ∉ x.data)
    (hphp : ∀ x ∈ s.filters.phpVersion, x ≠ "" ∧ ',' ∉ x.data)
    (harch : ∀ x ∈ s.filters.arch, x ≠ "" ∧ ',' ∉ x.data)
    (hext : ∀ x ∈ s.filters.extension, x ≠ "" ∧ ',' ∉ x.data)
    (hdet : s.selectedExtension ≠ some "") :
    loadFromUrl (syncToUrl s) defaultStoreState = s := by
  apply storeState_ext
  · rw [loadFromUrl_search]
    by_cases h : s.filters.search = ""
    · simp [syncToUrl, h, defaultStoreState, defaultFilters]
    · simp [syncToUrl, h]
  · rw [loadFromUrl_os]
    cases hlist : s.filters.os with
    | nil => simp [syncToUrl, hlist, defaultStoreState, defaultFilters]
    | cons x xs =>
      have hx : x ≠ "" := (hos x (by rw [hlist]; simp)).1
      have hjoin := jsJoinComma_ne_empty x xs hx
      simp only [syncToUrl, hlist, List.length_cons, Nat.succ_ne_zero,
        ne_eq, not_false_eq_true, if_pos, if_neg hjoin]
      exact jsSplitComma_jsJoinComma (x :: xs) (by simp)
        (fun z hz => (hos z (by rw [hlist]; exact hz)).2)
  · rw [loadFromUrl_php]
    cases hlist : s.filters.phpVersion with
    | nil => simp [syncToUrl, hlist, defaultStoreState, defaultFilters]
    | cons x xs =>
      have hx : x ≠ "" := (hphp x (by rw [hlist]; simp)).1
      have hjoin := jsJoinComma_ne_empty x xs hx
      simp only [syncToUrl, hlist, List.length_cons, Nat.succ_ne_zero,
        ne_eq, not_false_eq_true, if_pos, if_neg hjoin]
      exact jsSplitComma_jsJoinComma (x :: xs) (by simp)
        (fun z hz => (hphp z (by rw [hlist]; exact hz)).2)
  · rw [loadFromUrl_arch]
    cases hlist : s.filters.arch with
    | nil => simp [syncToUrl, hlist, defaultStoreState, defaultFilters]
    | cons x xs =>
      have hx : x ≠ "" := (harch x (by rw [hlist]; simp)).1
      have hjoin := jsJoinComma_ne_empty x xs hx
      simp only [syncToUrl, hlist, List.length_cons, Nat.succ_ne_zero,
        ne_eq, not_false_eq_true, if_pos, if_neg hjoin]
      exact jsSplitComma_jsJoinComma (x :: xs) (by simp)
        (fun z hz => (harch z (by rw [hlist]; exact hz)).2)
  · rw [loadFromUrl_ext]
    cases hlist : s.filters.extension with
    | nil => simp [syncToUrl, hlist, defaultStoreState, defaultFilters]
    | cons x xs =>
      have hx : x ≠ "" := (hext x (by rw [hlist]; simp)).1
      have hjoin := jsJoinComma_ne_empty x xs hx
      simp only [syncToUrl, hlist, List.length_cons, Nat.succ_ne_zero,
        ne_eq, not_false_eq_true, if_pos, if_neg hjoin]
      exact jsSplitComma_jsJoinComma (x :: xs) (by simp)
        (fun z hz => (hext z (by rw [hlist]; exact hz)).2)
  · rw [loadFromUrl_status]
    cases hst : s.filters.status <;>
      simp [syncToUrl, hst, statusStr, defaultStoreState, defaultFilters]
  · rw [loadFromUrl_view]
    cases hv : s.currentView <;>
      simp [syncToUrl, hv, viewStr, defaultStoreState]
  · rw [loadFromUrl_detail]
    cases hd : s.selectedExtension with
    | none => simp [syncToUrl, hd, defaultStoreState]
    | some d =>
      have hdne : d ≠ "" := fun he => hdet (by rw [hd, he])
      simp [syncToUrl, hd, hdne, defaultStoreState]

/-- Witness for C6 at the spec's example state: search `redis`, OS
`['alpine|3.19']`, status `'failure'` round-trips exactly. -/
theorem C6_witness :
    (∀ x ∈ egUrlState.filters.os, x ≠ "" ∧ ',' ∉ x.data) ∧
    egUrlState.selectedExtension ≠ some "" ∧
    loadFromUrl (syncToUrl egUrlState) defaultStoreState = egUrlState := by
  refine ⟨by decide, by decide, ?_⟩
  exact C6_url_roundtrip egUrlState (by decide) (by decide) (by decide)
    (by decide) (by decide)

/-! ### Sentinel equivalence of the empty and full facet selections -/

/-- `filterBuilds` with a full OS selection containing every build's
`"platform|platform_version"` key behaves like the empty (sentinel) OS
selection. -/
theorem filterBuilds_os_all (f : Filters) (osAll : List String)
    (bs : List BuildResult) (h : ∀ b ∈ bs, osKey b ∈ osAll) :
    filterBuilds { f with os := osAll } bs = filterBuilds { f with os := [] } bs := by
  unfold filterBuilds
  apply List.filter_congr
  intro b hb
  have hm : b.platform ++ "|" ++ b.platform_version ∈ osAll := by
    simpa [osKey] using h b hb
  simp [hm]

/-- `filterBuilds` with a full PHP selection containing every build's
`php_version` behaves like the empty (sentinel) PHP selection. -/
theorem filterBuilds_php_all (f : Filters) (phpAll : List String)
    (bs : List BuildResult) (h : ∀ b ∈ bs, b.php_version ∈ phpAll) :
    filterBuilds { f with phpVersion := phpAll } bs =
      filterBuilds { f with phpVersion := [] } bs := by
  unfold filterBuilds
  apply List.filter_congr
  intro b hb
  have hm : b.php_version ∈ phpAll := h b hb
  simp [hm]

/-- `filterBuilds` with a full architecture selection containing every
build's `arch` behaves like the empty (sentinel) architecture selection. -/
theorem filterBuilds_arch_all (f : Filters) (archAll : List String)
    (bs : List BuildResult) (h : ∀ b ∈ bs, b.arch ∈ archAll) :
    filterBuilds { f with arch := archAll } bs =
      filterBuilds { f with arch := [] } bs := by
  unfold filterBuilds
  apply List.filter_congr
  intro b hb
  have hm : b.arch ∈ archAll := h b hb
  simp [hm]

/-- A full-length OS selection makes `hasDetailFilters` agree with the empty
OS selection. -/
theorem hasDetailFilters_os_all (f : Filters) (t : Totals)
    (osAll : List String) (hlen : osAll.length = t.os) :
    hasDetailFilters { f with os := osAll } t =
      hasDetailFilters { f with os := [] } t := by
  simp [hasDetailFilters, hlen]

/-- A full-length PHP selection makes `hasDetailFilters` agree with the
empty PHP selection. -/
theorem hasDetailFilters_php_all (f : Filters) (t : Totals)
    (phpAll : List String) (hlen : phpAll.length = t.php) :
    hasDetailFilters { f with phpVersion := phpAll } t =
      hasDetailFilters { f with phpVersion := [] } t := by
  simp [hasDetailFilters, hlen]

/-- A full-length architecture selection makes `hasDetailFilters` agree with
the empty architecture selection. -/
theorem hasDetailFilters_arch_all (f : Filters) (t : Totals)
    (archAll : List String) (hlen : archAll.length = t.arch) :
    hasDetailFilters { f with arch := archAll } t =
      hasDetailFilters { f with arch := [] } t := by
  simp [hasDetailFilters, hlen]

/-- `refineExtension` is unchanged by swapping the empty OS selection for a
full one covering the model's build keys. -/
theorem refineExtension_os_all (f : Filters) (osAll : List String) (hd : Bool)
    (ext : ProcessedExtension) (h : ∀ b ∈ ext.builds.getD [], osKey b ∈ osAll) :
    refineExtension { f with os := [] } hd ext =
      refineExtension { f with os := osAll } hd ext := by
  cases hd with
  | false => rfl
  | true =>
    cases hb : ext.builds with
    | none => simp [refineExtension, hb]
    | some bs =>
      simp only [refineExtension, hb]
      rw [filterBuilds_os_all f osAll bs (by simpa [hb] using h)]

/-- `refineExtension` is unchanged by swapping the empty PHP selection for a
full one covering the model's build versions. -/
theorem refineExtension_php_all (f : Filters) (phpAll : List String)
    (hd : Bool) (ext : ProcessedExtension)
    (h : ∀ b ∈ ext.builds.getD [], b.php_version ∈ phpAll) :
    refineExtension { f with phpVersion := [] } hd ext =
      refineExtension { f with phpVersion := phpAll } hd ext := by
  cases hd with
  | false => rfl
  | true =>
    cases hb : ext.builds with
    | none => simp [refineExtension, hb]
    | some bs =>
      simp only [refineExtension, hb]
      rw [filterBuilds_php_all f phpAll bs (by simpa [hb] using h)]

/-- `refineExtension` is unchanged by swapping the empty architecture
selection for a full one covering the model's build architectures. -/
theorem refineExtension_arch_all (f : Filters) (archAll : List String)
    (hd : Bool) (ext : ProcessedExtension)
    (h : ∀ b ∈ ext.builds.getD [], b.arch ∈ archAll) :
    refineExtension { f with arch := [] } hd ext =
      refineExtension { f with arch := archAll } hd ext := by
  cases hd with
  | false => rfl
  | true =>
    cases hb : ext.builds with
    | none => simp [refineExtension, hb]
    | some bs =>
      simp only [refineExtension, hb]
      rw [filterBuilds_arch_all f archAll bs (by simpa [hb] using h)]

/-- C2, amended: with the per-facet totals recorded, setting a facet to the
empty array or to a full-selection array (length equal to the recorded
total) makes `filterExtensions` produce identical output, provided every
attached build record draws that facet's key from the full-selection array —
a build with a key outside the known values is kept by the `[]` sentinel but
dropped by the explicit full selection. -/
theorem C2_sentinel_equivalence (f : Filters) (t : Totals)
    (exts : List ProcessedExtension) :
    (∀ osAll, osAll.length = t.os → buildsFacetWithin osKey osAll exts →
      filterExtensions { f with os := [] } t exts =
        filterExtensions { f with os := osAll } t exts) ∧
    (∀ phpAll, phpAll.length = t.php →
      buildsFacetWithin (fun b => b.php_version) phpAll exts →
      filterExtensions { f with phpVersion := [] } t exts =
        filterExtensions { f with phpVersion := phpAll } t exts) ∧
    (∀ archAll, archAll.length = t.arch →
      buildsFacetWithin (fun b => b.arch) archAll exts →
      filterExtensions { f with arch := [] } t exts =
        filterExtensions { f with arch := archAll } t exts) := by
  refine ⟨?_, ?_, ?_⟩
  · intro osAll hlen hw
    unfold filterExtensions
    rw [hasDetailFilters_os_all f t osAll hlen]
    have hn : extNameMatches { f with os := osAll } =
        extNameMatches { f with os := [] } := rfl
    rw [hn]
    apply List.filterMap_congr
    intro ext hext
    exact refineExtension_os_all f osAll _ ext
      (hw ext (List.mem_of_mem_filter hext))
  · intro phpAll hlen hw
    unfold filterExtensions
    rw [hasDetailFilters_php_all f t phpAll hlen]
    have hn : extNameMatches { f with phpVersion := phpAll } =
        extNameMatches { f with phpVersion := [] } := rfl
    rw [hn]
    apply List.filterMap_congr
    intro ext hext
    exact refineExtension_php_all f phpAll _ ext
      (hw ext (List.mem_of_mem_filter hext))
  · intro archAll hlen hw
    unfold filterExtensions
    rw [hasDetailFilters_arch_all f t archAll hlen]
    have hn : extNameMatches { f with arch := archAll } =
        extNameMatches { f with arch := [] } := rfl
    rw [hn]
    apply List.filterMap_congr
    intro ext hext
    exact refineExtension_arch_all f archAll _ ext
      (hw ext (List.mem_of_mem_filter hext))

/-- C2, counterexample: with the `egMetadata` totals recorded and the PHP
facet a proper subset, the empty OS selection and the explicit full OS
selection disagree on a model whose build is on a platform outside the
catalog: the sentinel keeps it, the full selection drops it. -/
theorem C2_counterexample :
    filterExtensions { defaultFilters with phpVersion := ["8.3"] }
        (initializeTotals egMetadata) [egExtUnknown] ≠
      filterExtensions
        { defaultFilters with
          phpVersion := ["8.3"], os := initOsFilters egMetadata }
        (initializeTotals egMetadata) [egExtUnknown] := by
  decide

/-- Witness for C2 with the full OS selection of `egMetadata` against the
`redis` model, whose build keys all come from the catalog. -/
theorem C2_witness :
    (initOsFilters egMetadata).length = (initializeTotals egMetadata).os ∧
    buildsFacetWithin osKey (initOsFilters egMetadata) [egExt] ∧
    filterExtensions
        { { defaultFilters with phpVersion := ["8.3"] } with os := [] }
        (initializeTotals egMetadata) [egExt] =
      filterExtensions
        { { defaultFilters with phpVersion := ["8.3"] } with
          os := initOsFilters egMetadata }
        (initializeTotals egMetadata) [egExt] := by
  refine ⟨by decide, by unfold buildsFacetWithin; decide, ?_⟩
  exact (C2_sentinel_equivalence { defaultFilters with phpVersion := ["8.3"] }
    (initializeTotals egMetadata) [egExt]).1 (initOsFilters egMetadata)
    (by decide) (by unfold buildsFacetWithin; decide)

end PhpExtWeb
